import Mathlib

set_option linter.unusedVariables false

/-! Shallow embedding of reconchess/play.py.

The module under verification drives a reconnaissance-chess game in three
topologies: a local driver (play_local_game), a remote driver
(play_remote_game), and a multiprocessing topology whose mediator loop
(_respond_to_requests) answers tagged command messages from the two player
processes over per-color queues.

The game object and the player object are external to play.py, so they are
modelled as records of operations over an explicit state type.  Every
embedded function additionally returns the ordered trace of the calls it
performs, so that the ordering claims of the specification become
statements about traces. -/

/-- chess.WHITE is true and chess.BLACK is false, as in python-chess. -/
abbrev Color := Bool

abbrev Square := Nat

/-- A chess move: opaque pass-through data for play.py. -/
structure Move where
  fromSq : Nat
  toSq : Nat
  promotion : Option Nat
  deriving DecidableEq

/-- The value returned by Game.sense: opaque pass-through data. -/
abbrev SenseResult := List (Square × Option Nat)

/-- The triple returned by Game.move: (requested_move, taken_move, opt_enemy_capture_square). -/
abbrev MoveResult := Option Move × Option Move × Option Square

inductive WinReason where
  | kingCapture
  | timeout
  deriving DecidableEq

/-- Opaque pass-through history records. -/
abbrev GameHistory := List Nat

abbrev Board := Nat

/-- chess.Board(): the canonical starting position. -/
def startingBoard : Board := 0

/-- The Game interface of play.py over an explicit state type σ.
Queries are pure; sense, move and end_turn are the mutating operations,
as in the Game State Machine contract. -/
structure Game (σ : Type) where
  turn : σ → Color
  is_over : σ → Bool
  sense_actions : σ → List Square
  move_actions : σ → List Move
  opponent_move_results : σ → Option Square
  sense : σ → Square → SenseResult × σ
  move : σ → Option Move → MoveResult × σ
  end_turn : σ → σ
  get_seconds_left : σ → Nat
  seconds_left_by_color : σ → Color → Nat
  get_winner_color : σ → Option Color
  get_win_reason : σ → Option WinReason
  get_game_history : σ → GameHistory
  player_names : σ → Color → String
  board : σ → Board
  start : σ → σ
  game_end : σ → σ
  store_players : σ → String → String → σ
  set_player_names : σ → String → String → σ
  get_player_color : Color
  get_starting_board : Board
  get_opponent_name : String

/-- The Player interface of play.py over an explicit state type π. -/
structure Player (π : Type) where
  handle_game_start : π → Color → Board → String → π
  handle_opponent_move_result : π → Bool → Option Square → π
  choose_sense : π → List Square → List Move → Nat → Square × π
  handle_sense_result : π → SenseResult → π
  choose_move : π → List Move → Nat → Option Move × π
  handle_move_result : π → Option Move → Option Move → Bool → Option Square → π
  handle_game_end : π → Option Color → Option WinReason → GameHistory → π

/-- One observable call performed while playing a turn. -/
inductive TEvent where
  | qSenseActions (sa : List Square)
  | qMoveActions (ma : List Move)
  | qOpponentMoveResults (r : Option Square)
  | hOpponentMoveResult (captured : Bool) (sq : Option Square)
  | chooseSense (sa : List Square) (ma : List Move) (t : Nat) (choice : Square)
  | gSense (sq : Square) (res : SenseResult)
  | hSenseResult (res : SenseResult)
  | chooseMove (ma : List Move) (t : Nat) (choice : Option Move)
  | gMove (req : Option Move) (res : MoveResult)
  | gEndTurn
  | hMoveResult (req : Option Move) (taken : Option Move) (captured : Bool) (sq : Option Square)
  deriving DecidableEq

def TEvent.isQSenseActions : TEvent → Bool
  | .qSenseActions _ => true
  | _ => false

def TEvent.isQMoveActions : TEvent → Bool
  | .qMoveActions _ => true
  | _ => false

def TEvent.isQOpponentMoveResults : TEvent → Bool
  | .qOpponentMoveResults _ => true
  | _ => false

def TEvent.isGEndTurn : TEvent → Bool
  | .gEndTurn => true
  | _ => false

/-- notify_opponent_move_results(game, player): query the opponent move result
and deliver it to the player. -/
def notify_opponent_move_results {σ π : Type} (g : Game σ) (p : Player π)
    (s : σ) (ps : π) : σ × π × List TEvent :=
  let opt_capture_square := g.opponent_move_results s
  (s, p.handle_opponent_move_result ps opt_capture_square.isSome opt_capture_square,
    [TEvent.qOpponentMoveResults opt_capture_square,
     TEvent.hOpponentMoveResult opt_capture_square.isSome opt_capture_square])

/-- play_sense(game, player, sense_actions, move_actions): choose a sense,
apply it, deliver the result. -/
def play_sense {σ π : Type} (g : Game σ) (p : Player π)
    (sense_actions : List Square) (move_actions : List Move)
    (s : σ) (ps : π) : σ × π × List TEvent :=
  let t := g.get_seconds_left s
  let c := p.choose_sense ps sense_actions move_actions t
  let r := g.sense s c.1
  (r.2, p.handle_sense_result c.2 r.1,
    [TEvent.chooseSense sense_actions move_actions t c.1,
     TEvent.gSense c.1 r.1,
     TEvent.hSenseResult r.1])

/-- play_move(game, player, move_actions, end_turn_last): choose a move, apply
it, call end_turn before or after handle_move_result depending on the flag. -/
def play_move {σ π : Type} (g : Game σ) (p : Player π)
    (move_actions : List Move) (end_turn_last : Bool)
    (s : σ) (ps : π) : σ × π × List TEvent :=
  let t := g.get_seconds_left s
  let c := p.choose_move ps move_actions t
  let mr := g.move s c.1
  let requested_move := mr.1.1
  let taken_move := mr.1.2.1
  let opt_enemy_capture_square := mr.1.2.2
  let ps1 := p.handle_move_result c.2 requested_move taken_move
    opt_enemy_capture_square.isSome opt_enemy_capture_square
  if end_turn_last then
    (g.end_turn mr.2, ps1,
      [TEvent.chooseMove move_actions t c.1,
       TEvent.gMove c.1 mr.1,
       TEvent.hMoveResult requested_move taken_move
         opt_enemy_capture_square.isSome opt_enemy_capture_square,
       TEvent.gEndTurn])
  else
    (g.end_turn mr.2, ps1,
      [TEvent.chooseMove move_actions t c.1,
       TEvent.gMove c.1 mr.1,
       TEvent.gEndTurn,
       TEvent.hMoveResult requested_move taken_move
         opt_enemy_capture_square.isSome opt_enemy_capture_square])

/-- play_turn(game, player, end_turn_last): lines 84-91 of play.py.  The
sense_actions and move_actions queries happen first, then the opponent-move
notification, then the sense phase, then the move phase. -/
def play_turn {σ π : Type} (g : Game σ) (p : Player π) (end_turn_last : Bool)
    (s : σ) (ps : π) : σ × π × List TEvent :=
  let sense_actions := g.sense_actions s
  let move_actions := g.move_actions s
  let r1 := notify_opponent_move_results g p s ps
  let r2 := play_sense g p sense_actions move_actions r1.1 r1.2.1
  let r3 := play_move g p move_actions end_turn_last r2.1 r2.2.1
  (r3.1, r3.2.1,
    TEvent.qSenseActions sense_actions :: TEvent.qMoveActions move_actions ::
      (r1.2.2 ++ r2.2.2 ++ r3.2.2))

/-- The trace of calls performed by one play_turn invocation. -/
def playTurnTrace {σ π : Type} (g : Game σ) (p : Player π) (end_turn_last : Bool)
    (s : σ) (ps : π) : List TEvent :=
  (play_turn g p end_turn_last s ps).2.2

/-- A concrete game instance over Nat states, used to evaluate claims at
concrete inputs.  The state counts end_turn calls; white moves on even
states; the game is over from state 4 on. -/
def demoGame : Game Nat where
  turn := fun s => decide (s % 2 = 0)
  is_over := fun s => decide (4 ≤ s)
  sense_actions := fun _ => [0, 1]
  move_actions := fun _ => [⟨0, 1, none⟩]
  opponent_move_results := fun _ => none
  sense := fun s sq => ([(sq, none)], s)
  move := fun s m => ((m, m, none), s)
  end_turn := fun s => s + 1
  get_seconds_left := fun s => 100 - s
  seconds_left_by_color := fun _ c => if c then 50 else 60
  get_winner_color := fun s => if 4 ≤ s then some true else none
  get_win_reason := fun s => if 4 ≤ s then some WinReason.kingCapture else none
  get_game_history := fun s => List.range s
  player_names := fun _ c => if c then "W" else "B"
  board := fun _ => 0
  start := fun s => s
  game_end := fun s => s
  store_players := fun s _ _ => s
  set_player_names := fun s _ _ => s
  get_player_color := true
  get_starting_board := 0
  get_opponent_name := "opp"

/-- A concrete player instance over Nat states. -/
def demoPlayer : Player Nat where
  handle_game_start := fun ps _ _ _ => ps + 1
  handle_opponent_move_result := fun ps _ _ => ps + 1
  choose_sense := fun ps _ _ _ => (0, ps + 1)
  handle_sense_result := fun ps _ => ps + 1
  choose_move := fun ps ma _ => (ma.head?, ps + 1)
  handle_move_result := fun ps _ _ _ _ => ps + 1
  handle_game_end := fun ps _ _ _ => ps + 1

/-- A tagged command message sent on a 'to moderator' queue, with its payload. -/
inductive Request where
  | color
  | starting_board
  | opponent_name
  | sense_actions
  | move_actions
  | seconds_left
  | ready
  | is_my_turn
  | opponent_move_results
  | sense (square : Square)
  | move (requested_move : Option Move)
  | end_turn
  | game_status
  | winner_color
  | win_reason
  | game_history
  deriving DecidableEq

/-- A response enqueued on a 'to player' queue.  `Response.none` is the bare
Python None that the end_turn handler puts when it is not the caller's turn;
the other constructors are the single-key dictionaries of play.py. -/
inductive Response where
  | none
  | color (c : Color)
  | board (b : Board)
  | opponent_name (n : String)
  | sense_actions (sa : Option (List Square))
  | move_actions (ma : Option (List Move))
  | seconds_left (t : Nat)
  | ready
  | is_my_turn (b : Bool)
  | opponent_move_results (r : Option Square)
  | sense_result (r : Option SenseResult)
  | move_result (r : Option MoveResult)
  | end_turn_done
  | game_status (is_over : Bool) (is_my_turn : Bool)
  | winner_color (w : Option Color)
  | win_reason (r : Option WinReason)
  | game_history (h : GameHistory)
  deriving DecidableEq

/-- A mutating Game State Machine operation invoked by the mediator. -/
inductive GCall where
  | senseCall (sq : Square)
  | moveCall (m : Option Move)
  | endTurnCall
  deriving DecidableEq

/-- The gated commands whose not-your-turn response must carry the None
sentinel: sense_actions, move_actions, opponent_move_results, sense, move. -/
def Request.isGated : Request → Bool
  | .sense_actions => true
  | .move_actions => true
  | .opponent_move_results => true
  | .sense _ => true
  | .move _ => true
  | _ => false

/-- Whether a response carries the None sentinel as its payload. -/
def Response.carriesNone : Response → Bool
  | .none => true
  | .sense_actions Option.none => true
  | .move_actions Option.none => true
  | .opponent_move_results Option.none => true
  | .sense_result Option.none => true
  | .move_result Option.none => true
  | _ => false

/-- The is_my_turn information carried by a response, if any: the payload of
an is_my_turn response, or the is_my_turn field of a game_status response. -/
def respIsMyTurn : Response → Option Bool
  | .is_my_turn b => some b
  | .game_status _ b => some b
  | _ => Option.none

/-- The dispatch table of _respond_to_requests (play.py lines 249-286):
handle one request from `color`, returning the new game state, the response
put on that color's 'to player' queue, and the mutating game calls made. -/
def handle_request {σ : Type} (g : Game σ) (s : σ) (color : Color)
    (req : Request) : σ × Response × List GCall :=
  let on_own_turn := decide (g.turn s = color)
  match req with
  | .color => (s, Response.color color, [])
  | .starting_board => (s, Response.board startingBoard, [])
  | .opponent_name => (s, Response.opponent_name (g.player_names s (!color)), [])
  | .sense_actions =>
      (s, Response.sense_actions (if on_own_turn then some (g.sense_actions s) else Option.none), [])
  | .move_actions =>
      (s, Response.move_actions (if on_own_turn then some (g.move_actions s) else Option.none), [])
  | .seconds_left =>
      (s, Response.seconds_left
        (if on_own_turn then g.get_seconds_left s else g.seconds_left_by_color s color), [])
  | .ready => (s, Response.ready, [])
  | .is_my_turn => (s, Response.is_my_turn (on_own_turn || g.is_over s), [])
  | .opponent_move_results =>
      (s, Response.opponent_move_results
        (if on_own_turn then g.opponent_move_results s else Option.none), [])
  | .sense sq =>
      if on_own_turn then
        let r := g.sense s sq
        (r.2, Response.sense_result (some r.1), [GCall.senseCall sq])
      else (s, Response.sense_result Option.none, [])
  | .move m =>
      if on_own_turn then
        let r := g.move s m
        (r.2, Response.move_result (some r.1), [GCall.moveCall m])
      else (s, Response.move_result Option.none, [])
  | .end_turn =>
      if on_own_turn then (g.end_turn s, Response.end_turn_done, [GCall.endTurnCall])
      else (s, Response.none, [])
  | .game_status => (s, Response.game_status (g.is_over s) on_own_turn, [])
  | .winner_color => (s, Response.winner_color (g.get_winner_color s), [])
  | .win_reason => (s, Response.win_reason (g.get_win_reason s), [])
  | .game_history => (s, Response.game_history (g.get_game_history s), [])

/-- The winner_color payload of a response. -/
def respWinnerColor : Response → Option Color
  | .winner_color w => w
  | _ => Option.none

/-- The win_reason payload of a response. -/
def respWinReason : Response → Option WinReason
  | .win_reason r => r
  | _ => Option.none

/-- The game_history payload of a response. -/
def respGameHistory : Response → GameHistory
  | .game_history h => h
  | _ => []

/-- Modelled from the spec: the end-of-game triple a multiprocessing peer
obtains through its stub game (class MultiprocessingLocalGame, which is not
under src/).  Per spec section 4.3 every peer-side Game-Interface call
becomes a tagged command on that color's 'to-mediator' direction, answered
by the mediator's dispatch table from the one authoritative game state, so
the stub's winner_color, win_reason and game_history queries return the
payloads of the mediator's responses to those three requests. -/
def peerEndTriple {σ : Type} (g : Game σ) (s : σ) (color : Color) :
    Option Color × Option WinReason × GameHistory :=
  (respWinnerColor (handle_request g s color Request.winner_color).2.1,
   respWinReason (handle_request g s color Request.win_reason).2.1,
   respGameHistory (handle_request g s color Request.game_history).2.1)

/-- One color's duplex channel: FIFO queues, head is the oldest message. -/
structure ColorQueues where
  toPlayer : List Response
  toModerator : List Request
  deriving DecidableEq

/-- The per-color queues dictionary of play_multiprocessing_local_game. -/
structure AllQueues where
  white : ColorQueues
  black : ColorQueues
  deriving DecidableEq

/-- The body run by _respond_to_requests for one color: if that color's
'to moderator' queue has a pending message, dequeue exactly one, dispatch it,
and enqueue exactly one response on that color's 'to player' queue. -/
def respond_one {σ : Type} (g : Game σ) (s : σ) (q : ColorQueues)
    (color : Color) : σ × ColorQueues × List GCall :=
  match q.toModerator with
  | [] => (s, q, [])
  | req :: rest =>
      let r := handle_request g s color req
      (r.1, { toPlayer := q.toPlayer ++ [r.2.1], toModerator := rest }, r.2.2)

/-- _respond_to_requests(game, queues): iterate over chess.COLORS, which is
[WHITE, BLACK], handling at most one pending request per color. -/
def respond_to_requests {σ : Type} (g : Game σ) (s : σ) (qs : AllQueues) :
    σ × AllQueues × List GCall :=
  let rw := respond_one g s qs.white true
  let rb := respond_one g rw.1 qs.black false
  (rb.1, { white := rw.2.1, black := rb.2.1 }, rw.2.2 ++ rb.2.2)

/-- One observable call performed by a whole-game driver. -/
inductive DEvent where
  | playTurnCall (c : Color) (end_turn_last : Bool) (tr : List TEvent)
  | hGameStart (c : Color)
  | hGameEnd (c : Color) (w : Option Color) (r : Option WinReason) (h : GameHistory)
  | gStart
  | gEndCall
  deriving DecidableEq

/-- The `while not game.is_over(): play_turn(game, players[game.turn],
end_turn_last=True)` loop of play_local_game, with fuel; players[True] is the
white player. -/
def localLoop {σ πw πb : Type} (g : Game σ) (pw : Player πw) (pb : Player πb) :
    Nat → σ → πw → πb → σ × πw × πb × List DEvent
  | 0, s, w, b => (s, w, b, [])
  | Nat.succ f, s, w, b =>
      if g.is_over s then (s, w, b, [])
      else if g.turn s then
        let r := play_turn g pw true s w
        let rest := localLoop g pw pb f r.1 r.2.1 b
        (rest.1, rest.2.1, rest.2.2.1,
          DEvent.playTurnCall true true r.2.2 :: rest.2.2.2)
      else
        let r := play_turn g pb true s b
        let rest := localLoop g pw pb f r.1 w r.2.1
        (rest.1, rest.2.1, rest.2.2.1,
          DEvent.playTurnCall false true r.2.2 :: rest.2.2.2)

/-- play_local_game(white_player, black_player, game): deliver
handle_game_start to both players, start, loop until the game is over, end,
then deliver handle_game_end with (winner_color, win_reason, game_history)
to both players and return that triple. -/
def play_local_game {σ πw πb : Type} (g : Game σ) (pw : Player πw) (pb : Player πb)
    (white_name black_name : String) (fuel : Nat) (s : σ) (w : πw) (b : πb) :
    (Option Color × Option WinReason × GameHistory) × σ × πw × πb × List DEvent :=
  let s0 := g.store_players s white_name black_name
  let w0 := pw.handle_game_start w true (g.board s0) black_name
  let b0 := pb.handle_game_start b false (g.board s0) white_name
  let s1 := g.start s0
  let r := localLoop g pw pb fuel s1 w0 b0
  let s2 := g.game_end r.1
  let wc := g.get_winner_color s2
  let wr := g.get_win_reason s2
  let gh := g.get_game_history s2
  ((wc, wr, gh), s2,
    pw.handle_game_end r.2.1 wc wr gh,
    pb.handle_game_end r.2.2.1 wc wr gh,
    DEvent.hGameStart true :: DEvent.hGameStart false :: DEvent.gStart ::
      (r.2.2.2 ++ [DEvent.gEndCall,
        DEvent.hGameEnd true wc wr gh,
        DEvent.hGameEnd false wc wr gh]))

/-- The `while not game.is_over(): play_turn(game, player,
end_turn_last=False)` loop of _play_in_multiprocessing_local_game. -/
def peerLoop {σ π : Type} (g : Game σ) (p : Player π) :
    Nat → σ → π → σ × π × List DEvent
  | 0, s, ps => (s, ps, [])
  | Nat.succ f, s, ps =>
      if g.is_over s then (s, ps, [])
      else
        let r := play_turn g p false s ps
        let rest := peerLoop g p f r.1 r.2.1
        (rest.1, rest.2.1, DEvent.playTurnCall (g.turn s) false r.2.2 :: rest.2.2)

/-- _play_in_multiprocessing_local_game(queues, player_class): one peer
process; it plays turns with end_turn_last=False until its game stub says the
game is over, then delivers handle_game_end with the queried triple. -/
def play_in_multiprocessing_local_game {σ π : Type} (g : Game σ) (p : Player π)
    (fuel : Nat) (s : σ) (ps : π) : σ × π × List DEvent :=
  let c := g.get_player_color
  let ps0 := p.handle_game_start ps c g.get_starting_board g.get_opponent_name
  let s1 := g.start s
  let r := peerLoop g p fuel s1 ps0
  let wc := g.get_winner_color r.1
  let wr := g.get_win_reason r.1
  let gh := g.get_game_history r.1
  (r.1, p.handle_game_end r.2.1 wc wr gh,
    DEvent.hGameStart c :: DEvent.gStart ::
      (r.2.2 ++ [DEvent.hGameEnd c wc wr gh]))

/-- The first mediator loop of play_multiprocessing_local_game:
`while not game.is_over(): _respond_to_requests(game, player_queues)`.
The Nat result counts the _respond_to_requests calls made. -/
def mpLoop1 {σ : Type} (g : Game σ) : Nat → σ → AllQueues → σ × AllQueues × Nat
  | 0, s, qs => (s, qs, 0)
  | Nat.succ f, s, qs =>
      if g.is_over s then (s, qs, 0)
      else
        let r := respond_to_requests g s qs
        let rest := mpLoop1 g f r.1 r.2.1
        (rest.1, rest.2.1, rest.2.2 + 1)

/-- The drain loop of play_multiprocessing_local_game:
`while any(process.is_alive() ...): _respond_to_requests(game, player_queues)`.
`alive k` models the k-th evaluation of the loop condition; the Nat result
counts the _respond_to_requests calls made. -/
def mpLoop2 {σ : Type} (g : Game σ) (alive : Nat → Bool) :
    Nat → Nat → σ → AllQueues → σ × AllQueues × Nat
  | 0, _, s, qs => (s, qs, 0)
  | Nat.succ f, k, s, qs =>
      if alive k then
        let r := respond_to_requests g s qs
        let rest := mpLoop2 g alive f (k + 1) r.1 r.2.1
        (rest.1, rest.2.1, rest.2.2 + 1)
      else (s, qs, 0)

/-- play_multiprocessing_local_game: start the game, service requests until
the game is over, call game.end(), keep servicing while any player process is
alive, then return the queried result triple. -/
def play_multiprocessing_local_game {σ : Type} (g : Game σ) (alive : Nat → Bool)
    (f1 f2 : Nat) (white_name black_name : String) (s : σ) (qs : AllQueues) :
    (Option Color × Option WinReason × GameHistory) × σ × AllQueues :=
  let s0 := g.set_player_names (g.store_players s white_name black_name)
    white_name black_name
  let s1 := g.start s0
  let r1 := mpLoop1 g f1 s1 qs
  let s2 := g.game_end r1.1
  let r2 := mpLoop2 g alive f2 0 s2 r1.2.1
  ((g.get_winner_color r2.1, g.get_win_reason r2.1, g.get_game_history r2.1),
    r2.1, r2.2.1)

theorem play_turn_trace_eq {σ π : Type} (g : Game σ) (p : Player π)
    (etl : Bool) (s : σ) (ps : π) :
    playTurnTrace g p etl s ps =
      [TEvent.qSenseActions (g.sense_actions s),
       TEvent.qMoveActions (g.move_actions s),
       TEvent.qOpponentMoveResults (g.opponent_move_results s),
       TEvent.hOpponentMoveResult (g.opponent_move_results s).isSome
         (g.opponent_move_results s),
       TEvent.chooseSense (g.sense_actions s) (g.move_actions s)
         (g.get_seconds_left s)
         (p.choose_sense
           (p.handle_opponent_move_result ps (g.opponent_move_results s).isSome
             (g.opponent_move_results s))
           (g.sense_actions s) (g.move_actions s) (g.get_seconds_left s)).1] ++
      (let ps1 := p.handle_opponent_move_result ps (g.opponent_move_results s).isSome
         (g.opponent_move_results s)
       let c := p.choose_sense ps1 (g.sense_actions s) (g.move_actions s)
         (g.get_seconds_left s)
       let r := g.sense s c.1
       let m := p.choose_move (p.handle_sense_result c.2 r.1) (g.move_actions s)
         (g.get_seconds_left r.2)
       let mr := g.move r.2 m.1
       [TEvent.gSense c.1 r.1, TEvent.hSenseResult r.1,
        TEvent.chooseMove (g.move_actions s) (g.get_seconds_left r.2) m.1,
        TEvent.gMove m.1 mr.1] ++
       (if etl then
          [TEvent.hMoveResult mr.1.1 mr.1.2.1 mr.1.2.2.isSome mr.1.2.2,
           TEvent.gEndTurn]
        else
          [TEvent.gEndTurn,
           TEvent.hMoveResult mr.1.1 mr.1.2.1 mr.1.2.2.isSome mr.1.2.2])) := by
  cases etl <;> rfl

/-- Claim C1, counterexample.  The claim states that every play_turn
invocation calls game.opponent_move_results() before game.sense_actions()
and game.move_actions().  In the code the two action queries (lines 84-85)
precede notify_opponent_move_results (line 87), so at a concrete game and
player the opponent_move_results query appears at index 2 of the trace and
the action queries at indices 0 and 1. -/
theorem play_turn_opp_query_not_first :
    ¬ ∀ (σ π : Type) (g : Game σ) (p : Player π) (etl : Bool) (s : σ) (ps : π),
        (playTurnTrace g p etl s ps).findIdx TEvent.isQOpponentMoveResults <
            (playTurnTrace g p etl s ps).findIdx TEvent.isQSenseActions ∧
          (playTurnTrace g p etl s ps).findIdx TEvent.isQOpponentMoveResults <
            (playTurnTrace g p etl s ps).findIdx TEvent.isQMoveActions := by
  intro h
  exact absurd (h Nat Nat demoGame demoPlayer true 0 0).1 (by decide)

/-- Claim C1, amended: play_turn first queries game.sense_actions() and
game.move_actions(); the game.opponent_move_results() query and its delivery
to the agent come directly after those two queries and before the sense and
move phases. -/
theorem play_turn_query_order {σ π : Type} (g : Game σ) (p : Player π)
    (etl : Bool) (s : σ) (ps : π) :
    (playTurnTrace g p etl s ps).take 4 =
      [TEvent.qSenseActions (g.sense_actions s),
       TEvent.qMoveActions (g.move_actions s),
       TEvent.qOpponentMoveResults (g.opponent_move_results s),
       TEvent.hOpponentMoveResult (g.opponent_move_results s).isSome
         (g.opponent_move_results s)] := by
  cases etl <;> rfl

/-- Claim C4: in play_move, with end_turn_last=False the trace is
choose_move, game.move, game.end_turn, handle_move_result; with
end_turn_last=True it is choose_move, game.move, handle_move_result,
game.end_turn; and in every invocation game.end_turn appears exactly once. -/
theorem play_move_end_turn_ordering {σ π : Type} (g : Game σ) (p : Player π)
    (ma : List Move) (etl : Bool) (s : σ) (ps : π) :
    ((play_move g p ma etl s ps).2.2.countP TEvent.isGEndTurn = 1) ∧
    (etl = false →
      (play_move g p ma etl s ps).2.2 =
        [TEvent.chooseMove ma (g.get_seconds_left s)
           (p.choose_move ps ma (g.get_seconds_left s)).1,
         TEvent.gMove (p.choose_move ps ma (g.get_seconds_left s)).1
           (g.move s (p.choose_move ps ma (g.get_seconds_left s)).1).1,
         TEvent.gEndTurn,
         TEvent.hMoveResult
           (g.move s (p.choose_move ps ma (g.get_seconds_left s)).1).1.1
           (g.move s (p.choose_move ps ma (g.get_seconds_left s)).1).1.2.1
           (g.move s (p.choose_move ps ma (g.get_seconds_left s)).1).1.2.2.isSome
           (g.move s (p.choose_move ps ma (g.get_seconds_left s)).1).1.2.2]) ∧
    (etl = true →
      (play_move g p ma etl s ps).2.2 =
        [TEvent.chooseMove ma (g.get_seconds_left s)
           (p.choose_move ps ma (g.get_seconds_left s)).1,
         TEvent.gMove (p.choose_move ps ma (g.get_seconds_left s)).1
           (g.move s (p.choose_move ps ma (g.get_seconds_left s)).1).1,
         TEvent.hMoveResult
           (g.move s (p.choose_move ps ma (g.get_seconds_left s)).1).1.1
           (g.move s (p.choose_move ps ma (g.get_seconds_left s)).1).1.2.1
           (g.move s (p.choose_move ps ma (g.get_seconds_left s)).1).1.2.2.isSome
           (g.move s (p.choose_move ps ma (g.get_seconds_left s)).1).1.2.2,
         TEvent.gEndTurn]) := by
  refine ⟨?_, ?_, ?_⟩
  · cases etl <;>
      simp [play_move, TEvent.isGEndTurn, List.countP_cons, List.countP_nil]
  · intro h; subst h; rfl
  · intro h; subst h; rfl

/-- Witness for C4 at a concrete game, player and input, with
end_turn_last = false. -/
theorem play_move_end_turn_ordering_witness :
    (play_move demoGame demoPlayer [] false 0 0).2.2 =
      [TEvent.chooseMove [] (demoGame.get_seconds_left 0)
         (demoPlayer.choose_move 0 [] (demoGame.get_seconds_left 0)).1,
       TEvent.gMove (demoPlayer.choose_move 0 [] (demoGame.get_seconds_left 0)).1
         (demoGame.move 0 (demoPlayer.choose_move 0 [] (demoGame.get_seconds_left 0)).1).1,
       TEvent.gEndTurn,
       TEvent.hMoveResult
         (demoGame.move 0 (demoPlayer.choose_move 0 [] (demoGame.get_seconds_left 0)).1).1.1
         (demoGame.move 0 (demoPlayer.choose_move 0 [] (demoGame.get_seconds_left 0)).1).1.2.1
         (demoGame.move 0 (demoPlayer.choose_move 0 [] (demoGame.get_seconds_left 0)).1).1.2.2.isSome
         (demoGame.move 0 (demoPlayer.choose_move 0 [] (demoGame.get_seconds_left 0)).1).1.2.2] :=
  (play_move_end_turn_ordering demoGame demoPlayer [] false 0 0).2.1 rfl

/-- Claim C10: play_turn queries sense_actions and move_actions exactly once
each, as the first two events of the turn, and every choose_sense and
choose_move event carries that same move_actions snapshot. -/
theorem play_turn_single_action_snapshot {σ π : Type} (g : Game σ)
    (p : Player π) (etl : Bool) (s : σ) (ps : π) :
    (playTurnTrace g p etl s ps).countP TEvent.isQSenseActions = 1 ∧
    (playTurnTrace g p etl s ps).countP TEvent.isQMoveActions = 1 ∧
    (playTurnTrace g p etl s ps).head? =
      some (TEvent.qSenseActions (g.sense_actions s)) ∧
    (playTurnTrace g p etl s ps)[1]? =
      some (TEvent.qMoveActions (g.move_actions s)) ∧
    (∀ sa ma t c, TEvent.chooseSense sa ma t c ∈ playTurnTrace g p etl s ps →
      ma = g.move_actions s ∧ sa = g.sense_actions s) ∧
    (∀ ma t c, TEvent.chooseMove ma t c ∈ playTurnTrace g p etl s ps →
      ma = g.move_actions s) := by
  rw [play_turn_trace_eq]
  cases etl <;>
    simp [TEvent.isQSenseActions, TEvent.isQMoveActions, List.countP_cons,
      List.countP_nil, List.countP_append] <;>
    exact ⟨fun _ _ _ _ h1 h2 _ _ => ⟨h2, h1⟩, fun _ _ _ h1 _ _ => h1⟩

/-- Witness for C10: at a concrete game, player and input, the choose_move
event in the trace carries the move_actions snapshot of the initial state. -/
theorem play_turn_single_action_snapshot_witness :
    (⟨0, 1, none⟩ : Move) ∈ ([⟨0, 1, none⟩] : List Move) →
    ([⟨0, 1, none⟩] : List Move) = demoGame.move_actions 0 :=
  fun _ =>
    (play_turn_single_action_snapshot demoGame demoPlayer true 0 0).2.2.2.2.2
      [⟨0, 1, none⟩] 100 (some ⟨0, 1, none⟩) (by decide)

/-- Claim C2: a gated command (sense_actions, move_actions,
opponent_move_results, sense, move) received from the color whose turn it is
not gets a response carrying the None sentinel enqueued on its 'to player'
queue, no mutating game operation is invoked, and the game state is
unchanged. -/
theorem gated_commands_not_your_turn {σ : Type} (g : Game σ) (s : σ)
    (q : ColorQueues) (color : Color) (req : Request) (rest : List Request)
    (hq : q.toModerator = req :: rest)
    (hg : req.isGated = true)
    (ht : g.turn s ≠ color) :
    ∃ resp : Response,
      respond_one g s q color =
        (s, { toPlayer := q.toPlayer ++ [resp], toModerator := rest },
          ([] : List GCall)) ∧
      resp.carriesNone = true := by
  have hturn : decide (g.turn s = color) = false := decide_eq_false ht
  cases req
  case color => simp [Request.isGated] at hg
  case starting_board => simp [Request.isGated] at hg
  case opponent_name => simp [Request.isGated] at hg
  case seconds_left => simp [Request.isGated] at hg
  case ready => simp [Request.isGated] at hg
  case is_my_turn => simp [Request.isGated] at hg
  case end_turn => simp [Request.isGated] at hg
  case game_status => simp [Request.isGated] at hg
  case winner_color => simp [Request.isGated] at hg
  case win_reason => simp [Request.isGated] at hg
  case game_history => simp [Request.isGated] at hg
  case sense_actions =>
    refine ⟨Response.sense_actions Option.none, ?_, rfl⟩
    simp [respond_one, hq, handle_request, hturn]
  case move_actions =>
    refine ⟨Response.move_actions Option.none, ?_, rfl⟩
    simp [respond_one, hq, handle_request, hturn]
  case opponent_move_results =>
    refine ⟨Response.opponent_move_results Option.none, ?_, rfl⟩
    simp [respond_one, hq, handle_request, hturn]
  case sense sq =>
    refine ⟨Response.sense_result Option.none, ?_, rfl⟩
    simp [respond_one, hq, handle_request, hturn]
  case move m =>
    refine ⟨Response.move_result Option.none, ?_, rfl⟩
    simp [respond_one, hq, handle_request, hturn]

/-- Witness for C2: black to move at state 1 of the concrete game, white
issues sense_actions; the response is the None sentinel and the state is
unchanged. -/
theorem gated_commands_not_your_turn_witness :
    ∃ resp : Response,
      respond_one demoGame 1
          { toPlayer := [], toModerator := [Request.sense_actions] } true =
        (1, { toPlayer := [] ++ [resp], toModerator := [] }, ([] : List GCall)) ∧
      resp.carriesNone = true :=
  gated_commands_not_your_turn demoGame 1
    { toPlayer := [], toModerator := [Request.sense_actions] } true
    Request.sense_actions [] rfl rfl (by decide)

/-- Claim C3, counterexample.  The claim states that the is_my_turn field of
the game_status response is true if it is the caller's turn or the game has
ended.  At state 4 of the concrete game the game is over and it is white's
turn, yet black's game_status response carries is_my_turn = false. -/
theorem game_status_field_not_or_over :
    ¬ ∀ (σ : Type) (g : Game σ) (s : σ) (c : Color),
        respIsMyTurn (handle_request g s c Request.game_status).2.1 =
          some (decide (g.turn s = c) || g.is_over s) := by
  intro h
  exact absurd (h Nat demoGame 4 false) (by decide)

/-- Claim C3, amended: the standalone is_my_turn command responds with
(caller's turn OR game over), while the game_status command's is_my_turn
field carries only the turn-ownership bit, with the game-over bit reported
separately in its is_over field. -/
theorem is_my_turn_responses {σ : Type} (g : Game σ) (s : σ) (c : Color) :
    handle_request g s c Request.is_my_turn =
      (s, Response.is_my_turn (decide (g.turn s = c) || g.is_over s), []) ∧
    handle_request g s c Request.game_status =
      (s, Response.game_status (g.is_over s) (decide (g.turn s = c)), []) :=
  ⟨rfl, rfl⟩

/-- Claim C5: each _respond_to_requests invocation examines both colors'
'to moderator' queues; per color it dequeues at most one message (the new
queue is the old one's tail), leaves an empty channel untouched, and
enqueues exactly one response, the dispatch result for the dequeued request;
black's dispatch sees the game state left by white's. -/
theorem respond_to_requests_per_color {σ : Type} (g : Game σ) (s : σ)
    (qs : AllQueues) :
    (respond_to_requests g s qs).2.1.white.toModerator =
      qs.white.toModerator.drop 1 ∧
    (respond_to_requests g s qs).2.1.black.toModerator =
      qs.black.toModerator.drop 1 ∧
    (qs.white.toModerator = [] → (respond_to_requests g s qs).2.1.white = qs.white) ∧
    (qs.black.toModerator = [] → (respond_to_requests g s qs).2.1.black = qs.black) ∧
    (∀ req rest, qs.white.toModerator = req :: rest →
      (respond_to_requests g s qs).2.1.white.toPlayer =
        qs.white.toPlayer ++ [(handle_request g s true req).2.1]) ∧
    (∀ req rest, qs.black.toModerator = req :: rest →
      (respond_to_requests g s qs).2.1.black.toPlayer =
        qs.black.toPlayer ++
          [(handle_request g (respond_one g s qs.white true).1 false req).2.1]) := by
  rcases qs with ⟨⟨wtp, wtm⟩, ⟨btp, btm⟩⟩
  cases wtm <;> cases btm <;>
    simp [respond_to_requests, respond_one]

/-- Witness for C5: one pending white request and an empty black channel at a
concrete game state. -/
theorem respond_to_requests_per_color_witness :
    (respond_to_requests demoGame 0
        { white := { toPlayer := [], toModerator := [Request.ready] },
          black := { toPlayer := [], toModerator := [] } }).2.1.white.toPlayer =
      [] ++ [(handle_request demoGame 0 true Request.ready).2.1] ∧
    (respond_to_requests demoGame 0
        { white := { toPlayer := [], toModerator := [Request.ready] },
          black := { toPlayer := [], toModerator := [] } }).2.1.black =
      { toPlayer := [], toModerator := [] } :=
  ⟨(respond_to_requests_per_color demoGame 0
      { white := { toPlayer := [], toModerator := [Request.ready] },
        black := { toPlayer := [], toModerator := [] } }).2.2.2.2.1
      Request.ready [] rfl,
   (respond_to_requests_per_color demoGame 0
      { white := { toPlayer := [], toModerator := [Request.ready] },
        black := { toPlayer := [], toModerator := [] } }).2.2.2.1 rfl⟩

/-- Claim C7: the seconds_left command answers with the live clock
game.get_seconds_left() on the caller's turn, and with the caller's own
stored clock game.seconds_left_by_color[color] otherwise. -/
theorem seconds_left_gating {σ : Type} (g : Game σ) (s : σ) (c : Color) :
    (g.turn s = c →
      handle_request g s c Request.seconds_left =
        (s, Response.seconds_left (g.get_seconds_left s), [])) ∧
    (g.turn s ≠ c →
      handle_request g s c Request.seconds_left =
        (s, Response.seconds_left (g.seconds_left_by_color s c), [])) := by
  constructor <;> intro h <;> simp [handle_request, h]

/-- Witness for C7: white asks for seconds_left on its own turn, and black
asks on white's turn, at a concrete game state. -/
theorem seconds_left_gating_witness :
    handle_request demoGame 0 true Request.seconds_left =
      (0, Response.seconds_left (demoGame.get_seconds_left 0), []) ∧
    handle_request demoGame 0 false Request.seconds_left =
      (0, Response.seconds_left (demoGame.seconds_left_by_color 0 false), []) :=
  ⟨(seconds_left_gating demoGame 0 true).1 (by decide),
   (seconds_left_gating demoGame 0 false).2 (by decide)⟩

/-- Claim C8: on the caller's turn the end_turn command invokes
game.end_turn() and then enqueues the done acknowledgement; otherwise a bare
None marker is enqueued, game.end_turn() is not invoked, and the game state
is unchanged. -/
theorem end_turn_gating {σ : Type} (g : Game σ) (s : σ) (q : ColorQueues)
    (c : Color) (rest : List Request)
    (hq : q.toModerator = Request.end_turn :: rest) :
    (g.turn s = c →
      respond_one g s q c =
        (g.end_turn s,
          { toPlayer := q.toPlayer ++ [Response.end_turn_done], toModerator := rest },
          [GCall.endTurnCall])) ∧
    (g.turn s ≠ c →
      respond_one g s q c =
        (s, { toPlayer := q.toPlayer ++ [Response.none], toModerator := rest },
          ([] : List GCall))) := by
  constructor <;> intro h <;> simp [respond_one, hq, handle_request, h]

/-- Witness for C8: white ends its turn on its own turn, and black attempts
end_turn on white's turn, at a concrete game state. -/
theorem end_turn_gating_witness :
    respond_one demoGame 0
        { toPlayer := [], toModerator := [Request.end_turn] } true =
      (demoGame.end_turn 0,
        { toPlayer := [] ++ [Response.end_turn_done], toModerator := [] },
        [GCall.endTurnCall]) ∧
    respond_one demoGame 0
        { toPlayer := [], toModerator := [Request.end_turn] } false =
      (0, { toPlayer := [] ++ [Response.none], toModerator := [] },
        ([] : List GCall)) :=
  ⟨(end_turn_gating demoGame 0
      { toPlayer := [], toModerator := [Request.end_turn] } true [] rfl).1 (by decide),
   (end_turn_gating demoGame 0
      { toPlayer := [], toModerator := [Request.end_turn] } false [] rfl).2 (by decide)⟩

theorem respond_white_toPlayer_extends {σ : Type} (g : Game σ) (s : σ)
    (qs : AllQueues) :
    ∃ ext, (respond_to_requests g s qs).2.1.white.toPlayer =
      qs.white.toPlayer ++ ext := by
  rcases qs with ⟨⟨wtp, wtm⟩, bq⟩
  cases wtm with
  | nil => exact ⟨[], by simp [respond_to_requests, respond_one]⟩
  | cons req rest =>
      exact ⟨[(handle_request g s true req).2.1],
        by simp [respond_to_requests, respond_one]⟩

theorem mpLoop2_white_toPlayer_extends {σ : Type} (g : Game σ)
    (alive : Nat → Bool) :
    ∀ (f k : Nat) (s : σ) (qs : AllQueues),
      ∃ ext, (mpLoop2 g alive f k s qs).2.1.white.toPlayer =
        qs.white.toPlayer ++ ext := by
  intro f
  induction f with
  | zero => intro k s qs; exact ⟨[], by simp [mpLoop2]⟩
  | succ f ih =>
      intro k s qs
      cases ha : alive k with
      | false => exact ⟨[], by simp [mpLoop2, ha]⟩
      | true =>
          obtain ⟨e1, h1⟩ := respond_white_toPlayer_extends g s qs
          obtain ⟨e2, h2⟩ := ih (k + 1) (respond_to_requests g s qs).1
            (respond_to_requests g s qs).2.1
          refine ⟨e1 ++ e2, ?_⟩
          simp [mpLoop2, ha, h2, h1, List.append_assoc]

theorem respond_answers_winner_query {σ : Type} (g : Game σ) (s : σ)
    (qs : AllQueues) (rest : List Request)
    (hq : qs.white.toModerator = Request.winner_color :: rest) :
    (respond_to_requests g s qs).2.1.white.toPlayer =
      qs.white.toPlayer ++ [Response.winner_color (g.get_winner_color s)] := by
  simp [respond_to_requests, respond_one, hq, handle_request]

/-- Claim C6: the multiprocessing driver services requests via mpLoop1 until
the game is over, calls game.end(), then keeps servicing via mpLoop2 while
any player process is alive: mpLoop1 only stops early when is_over holds,
mpLoop2 only stops when the aliveness check fails, and a trailing read-only
winner_color query pending after game end is still answered. -/
theorem mediator_services_until_over_and_exit {σ : Type} (g : Game σ) :
    (∀ (f : Nat) (s : σ) (qs : AllQueues),
      (mpLoop1 g f s qs).2.2 < f → g.is_over (mpLoop1 g f s qs).1 = true) ∧
    (∀ (alive : Nat → Bool) (f k : Nat) (s : σ) (qs : AllQueues),
      (mpLoop2 g alive f k s qs).2.2 < f →
        alive (k + (mpLoop2 g alive f k s qs).2.2) = false) ∧
    (∀ (alive : Nat → Bool) (f : Nat) (s : σ) (qs : AllQueues)
        (rest : List Request),
      alive 0 = true →
      qs.white.toModerator = Request.winner_color :: rest →
        ((mpLoop2 g alive (f + 1) 0 s qs).2.1.white.toPlayer)[qs.white.toPlayer.length]? =
          some (Response.winner_color (g.get_winner_color s))) ∧
    (∀ (alive : Nat → Bool) (f1 f2 : Nat) (wn bn : String) (s : σ)
        (qs : AllQueues),
      (play_multiprocessing_local_game g alive f1 f2 wn bn s qs).2 =
        ((mpLoop2 g alive f2 0
            (g.game_end
              (mpLoop1 g f1
                (g.start (g.set_player_names (g.store_players s wn bn) wn bn))
                qs).1)
            (mpLoop1 g f1
              (g.start (g.set_player_names (g.store_players s wn bn) wn bn))
              qs).2.1).1,
          (mpLoop2 g alive f2 0
            (g.game_end
              (mpLoop1 g f1
                (g.start (g.set_player_names (g.store_players s wn bn) wn bn))
                qs).1)
            (mpLoop1 g f1
              (g.start (g.set_player_names (g.store_players s wn bn) wn bn))
              qs).2.1).2.1)) := by
  refine ⟨?_, ?_, ?_, ?_⟩
  · intro f
    induction f with
    | zero => intro s qs h; exact absurd h (Nat.not_lt_zero _)
    | succ f ih =>
        intro s qs h
        cases hov : g.is_over s with
        | true => simp [mpLoop1, hov]
        | false =>
            simp [mpLoop1, hov] at h ⊢
            exact ih _ _ (by omega)
  · intro alive f
    induction f with
    | zero => intro k s qs h; exact absurd h (Nat.not_lt_zero _)
    | succ f ih =>
        intro k s qs h
        cases ha : alive k with
        | false => simp [mpLoop2, ha]
        | true =>
            simp [mpLoop2, ha] at h ⊢
            have hrec := ih (k + 1) (respond_to_requests g s qs).1
              (respond_to_requests g s qs).2.1 (by omega)
            have harith :
                k + ((mpLoop2 g alive f (k + 1) (respond_to_requests g s qs).1
                  (respond_to_requests g s qs).2.1).2.2 + 1) =
                (k + 1) + (mpLoop2 g alive f (k + 1) (respond_to_requests g s qs).1
                  (respond_to_requests g s qs).2.1).2.2 := by omega
            rw [harith]
            exact hrec
  · intro alive f s qs rest ha hq
    obtain ⟨ext, hext⟩ := mpLoop2_white_toPlayer_extends g alive f 1
      (respond_to_requests g s qs).1 (respond_to_requests g s qs).2.1
    have h1 := respond_answers_winner_query g s qs rest hq
    have hcomp : (mpLoop2 g alive (f + 1) 0 s qs).2.1.white.toPlayer =
        (qs.white.toPlayer ++ [Response.winner_color (g.get_winner_color s)]) ++ ext := by
      simp [mpLoop2, ha, hext, h1]
    rw [hcomp, List.append_assoc,
      List.getElem?_append_right (Nat.le_refl _)]
    simp
  · intro alive f1 f2 wn bn s qs
    rfl

/-- Witness for C6: with the game already over, one alive check succeeding
and a pending white winner_color request, the drain loop answers it. -/
theorem mediator_services_witness :
    ((mpLoop2 demoGame (fun k => decide (k = 0)) (0 + 1) 0 4
        ⟨⟨[], [Request.winner_color]⟩, ⟨[], []⟩⟩).2.1.white.toPlayer)[
        (⟨⟨[], [Request.winner_color]⟩, ⟨[], []⟩⟩ : AllQueues).white.toPlayer.length]? =
      some (Response.winner_color (demoGame.get_winner_color 4)) :=
  (mediator_services_until_over_and_exit demoGame).2.2.1
    (fun k => decide (k = 0)) 0 4 ⟨⟨[], [Request.winner_color]⟩, ⟨[], []⟩⟩ []
    rfl rfl

theorem localLoop_events {σ πw πb : Type} (g : Game σ) (pw : Player πw)
    (pb : Player πb) :
    ∀ (f : Nat) (s : σ) (w : πw) (b : πb),
      ∀ e ∈ (localLoop g pw pb f s w b).2.2.2,
        ∃ c t, e = DEvent.playTurnCall c true t := by
  intro f
  induction f with
  | zero => intro s w b e he; simp [localLoop] at he
  | succ f ih =>
      intro s w b e he
      by_cases hov : g.is_over s = true
      · simp [localLoop, hov] at he
      · by_cases ht : g.turn s = true
        · simp [localLoop, hov, ht] at he
          rcases he with he | he
          · exact ⟨true, (play_turn g pw true s w).2.2, he⟩
          · exact ih _ _ _ e he
        · simp [localLoop, hov, ht] at he
          rcases he with he | he
          · exact ⟨false, (play_turn g pb true s b).2.2, he⟩
          · exact ih _ _ _ e he

theorem peerLoop_events {σ π : Type} (g : Game σ) (p : Player π) :
    ∀ (f : Nat) (s : σ) (ps : π),
      ∀ e ∈ (peerLoop g p f s ps).2.2,
        ∃ c t, e = DEvent.playTurnCall c false t := by
  intro f
  induction f with
  | zero => intro s ps e he; simp [peerLoop] at he
  | succ f ih =>
      intro s ps e he
      by_cases hov : g.is_over s = true
      · simp [peerLoop, hov] at he
      · simp [peerLoop, hov] at he
        rcases he with he | he
        · exact ⟨g.turn s, (play_turn g p false s ps).2.2, he⟩
        · exact ih _ _ e he

/-- Claim C9: in play_local_game the trace opens with handle_game_start for
white then black, the middle consists only of play_turn calls with
end_turn_last=true dispatched by game.turn, and it closes with game.end and
handle_game_end deliveries of the returned (winner, reason, history) triple
to both players; the multiprocessing peer opens with its own
handle_game_start, plays only play_turn calls with end_turn_last=false while
its game is not over, and closes with its own handle_game_end of the queried
triple; and the triple is the same for both peers: the mediator answers the
winner_color, win_reason and game_history commands from the one
authoritative state, independently of the requesting color and of whose
turn it is and without mutating that state, so two peers whose stub queries
are answered by the mediator at the same authoritative state deliver
handle_game_end with identical triples, equal to the authoritative
(get_winner_color, get_win_reason, get_game_history). -/
theorem whole_game_drivers_same_triple {σ1 σ2 πw πb π : Type}
    (g : Game σ1) (pw : Player πw) (pb : Player πb)
    (g2 : Game σ2) (p : Player π)
    (wn bn : String) (fuel : Nat) (s : σ1) (w : πw) (b : πb)
    (s2 : σ2) (ps : π) :
    (∃ tr,
      (play_local_game g pw pb wn bn fuel s w b).2.2.2.2 =
        DEvent.hGameStart true :: DEvent.hGameStart false :: DEvent.gStart ::
          (tr ++ [DEvent.gEndCall,
            DEvent.hGameEnd true (play_local_game g pw pb wn bn fuel s w b).1.1
              (play_local_game g pw pb wn bn fuel s w b).1.2.1
              (play_local_game g pw pb wn bn fuel s w b).1.2.2,
            DEvent.hGameEnd false (play_local_game g pw pb wn bn fuel s w b).1.1
              (play_local_game g pw pb wn bn fuel s w b).1.2.1
              (play_local_game g pw pb wn bn fuel s w b).1.2.2]) ∧
      ∀ e ∈ tr, ∃ c t, e = DEvent.playTurnCall c true t) ∧
    (g.is_over s = true → localLoop g pw pb (fuel + 1) s w b = (s, w, b, [])) ∧
    (g.is_over s = false →
      (localLoop g pw pb (fuel + 1) s w b).2.2.2 =
        DEvent.playTurnCall (g.turn s) true
            (if g.turn s then (play_turn g pw true s w).2.2
             else (play_turn g pb true s b).2.2) ::
          (if g.turn s then
            (localLoop g pw pb fuel (play_turn g pw true s w).1
              (play_turn g pw true s w).2.1 b).2.2.2
           else
            (localLoop g pw pb fuel (play_turn g pb true s b).1 w
              (play_turn g pb true s b).2.1).2.2.2)) ∧
    (∃ tr2,
      (play_in_multiprocessing_local_game g2 p fuel s2 ps).2.2 =
        DEvent.hGameStart g2.get_player_color :: DEvent.gStart ::
          (tr2 ++ [DEvent.hGameEnd g2.get_player_color
            (g2.get_winner_color
              (play_in_multiprocessing_local_game g2 p fuel s2 ps).1)
            (g2.get_win_reason
              (play_in_multiprocessing_local_game g2 p fuel s2 ps).1)
            (g2.get_game_history
              (play_in_multiprocessing_local_game g2 p fuel s2 ps).1)]) ∧
      ∀ e ∈ tr2, ∃ c t, e = DEvent.playTurnCall c false t) ∧
    (g2.is_over s2 = true → peerLoop g2 p (fuel + 1) s2 ps = (s2, ps, [])) ∧
    (g2.is_over s2 = false →
      (peerLoop g2 p (fuel + 1) s2 ps).2.2 =
        DEvent.playTurnCall (g2.turn s2) false (play_turn g2 p false s2 ps).2.2 ::
          (peerLoop g2 p fuel (play_turn g2 p false s2 ps).1
            (play_turn g2 p false s2 ps).2.1).2.2) ∧
    (∀ (sa : σ1) (c1 c2 : Color), peerEndTriple g sa c1 = peerEndTriple g sa c2) ∧
    (∀ (sa : σ1) (c : Color),
      peerEndTriple g sa c =
        (g.get_winner_color sa, g.get_win_reason sa, g.get_game_history sa) ∧
      handle_request g sa c Request.winner_color =
        (sa, Response.winner_color (g.get_winner_color sa), []) ∧
      handle_request g sa c Request.win_reason =
        (sa, Response.win_reason (g.get_win_reason sa), []) ∧
      handle_request g sa c Request.game_history =
        (sa, Response.game_history (g.get_game_history sa), [])) ∧
    (∀ (σw σb πw2 πb2 : Type) (gw : Game σw) (pw2 : Player πw2)
        (gb : Game σb) (pb2 : Player πb2) (fw fb : Nat)
        (sw : σw) (psw : πw2) (sb : σb) (psb : πb2) (sa : σ1),
      (gw.get_winner_color (play_in_multiprocessing_local_game gw pw2 fw sw psw).1,
       gw.get_win_reason (play_in_multiprocessing_local_game gw pw2 fw sw psw).1,
       gw.get_game_history (play_in_multiprocessing_local_game gw pw2 fw sw psw).1) =
        peerEndTriple g sa true →
      (gb.get_winner_color (play_in_multiprocessing_local_game gb pb2 fb sb psb).1,
       gb.get_win_reason (play_in_multiprocessing_local_game gb pb2 fb sb psb).1,
       gb.get_game_history (play_in_multiprocessing_local_game gb pb2 fb sb psb).1) =
        peerEndTriple g sa false →
      ((gw.get_winner_color (play_in_multiprocessing_local_game gw pw2 fw sw psw).1,
        gw.get_win_reason (play_in_multiprocessing_local_game gw pw2 fw sw psw).1,
        gw.get_game_history (play_in_multiprocessing_local_game gw pw2 fw sw psw).1) =
          (gb.get_winner_color (play_in_multiprocessing_local_game gb pb2 fb sb psb).1,
           gb.get_win_reason (play_in_multiprocessing_local_game gb pb2 fb sb psb).1,
           gb.get_game_history (play_in_multiprocessing_local_game gb pb2 fb sb psb).1) ∧
       (gw.get_winner_color (play_in_multiprocessing_local_game gw pw2 fw sw psw).1,
        gw.get_win_reason (play_in_multiprocessing_local_game gw pw2 fw sw psw).1,
        gw.get_game_history (play_in_multiprocessing_local_game gw pw2 fw sw psw).1) =
          (g.get_winner_color sa, g.get_win_reason sa, g.get_game_history sa))) := by
  refine ⟨?_, ?_, ?_, ?_, ?_, ?_, ?_, ?_, ?_⟩
  · exact ⟨(localLoop g pw pb fuel (g.start (g.store_players s wn bn))
        (pw.handle_game_start w true (g.board (g.store_players s wn bn)) bn)
        (pb.handle_game_start b false (g.board (g.store_players s wn bn)) wn)).2.2.2,
      rfl, localLoop_events g pw pb fuel _ _ _⟩
  · intro h; simp [localLoop, h]
  · intro h
    by_cases ht : g.turn s = true
    · simp [localLoop, h, ht]
    · simp [localLoop, h, ht]
  · exact ⟨(peerLoop g2 p fuel (g2.start s2)
        (p.handle_game_start ps g2.get_player_color g2.get_starting_board
          g2.get_opponent_name)).2.2,
      rfl, peerLoop_events g2 p fuel _ _⟩
  · intro h; simp [peerLoop, h]
  · intro h; simp [peerLoop, h]
  · intro sa c1 c2; rfl
  · intro sa c; exact ⟨rfl, rfl, rfl, rfl⟩
  · intro σw σb πw2 πb2 gw pw2 gb pb2 fw fb sw psw sb psb sa h1 h2
    exact ⟨h1.trans h2.symm, h1.trans rfl⟩

/-- Witness for C9: two concrete peers whose stub queries are answered by
the mediator at the same finished authoritative state deliver identical
end-of-game triples, equal to the authoritative one. -/
theorem whole_game_drivers_same_triple_witness :
    (demoGame.get_winner_color (play_in_multiprocessing_local_game demoGame demoPlayer 0 4 0).1,
     demoGame.get_win_reason (play_in_multiprocessing_local_game demoGame demoPlayer 0 4 0).1,
     demoGame.get_game_history (play_in_multiprocessing_local_game demoGame demoPlayer 0 4 0).1) =
      (demoGame.get_winner_color (play_in_multiprocessing_local_game demoGame demoPlayer 1 4 0).1,
       demoGame.get_win_reason (play_in_multiprocessing_local_game demoGame demoPlayer 1 4 0).1,
       demoGame.get_game_history (play_in_multiprocessing_local_game demoGame demoPlayer 1 4 0).1) ∧
    (demoGame.get_winner_color (play_in_multiprocessing_local_game demoGame demoPlayer 0 4 0).1,
     demoGame.get_win_reason (play_in_multiprocessing_local_game demoGame demoPlayer 0 4 0).1,
     demoGame.get_game_history (play_in_multiprocessing_local_game demoGame demoPlayer 0 4 0).1) =
      (demoGame.get_winner_color 4, demoGame.get_win_reason 4,
       demoGame.get_game_history 4) :=
  (whole_game_drivers_same_triple demoGame demoPlayer demoPlayer demoGame
      demoPlayer "W" "B" 0 4 0 0 4 0).2.2.2.2.2.2.2.2
    Nat Nat Nat Nat demoGame demoPlayer demoGame demoPlayer 0 1 4 0 4 0 4
    (by decide) (by decide)
